import Mathlib

/-
Verification of the otel-tracing-channel package: a shallow embedding of
src/utils.ts (isSpan), src/prepChannel.ts (prepChannel) and
src/tracingChannel.ts (the TracingChannel class: bindStore, unbindStore,
subscribe, unsubscribe, tracePromise, traceSync), together with a faithful
model of the collaborating Node.js diagnostics_channel primitive
(per-channel subscriber lists, exception-swallowing publish, keyed store
registries) and of the OpenTelemetry context API (active context, setSpan,
context-manager lookup).

JavaScript values are modelled by an inductive `Val` covering exactly the
shapes the code inspects; mutation of the caller's context record is
modelled by explicit state passing over an association list; thrown
exceptions are modelled with `Except`.
-/

deriving instance DecidableEq for Except

namespace OtelTracingChannel

/-! ## JavaScript values, as far as the code inspects them -/

/-- The object returned by a span's spanContext() accessor.  An empty
string models a missing or empty (falsy) identifier. -/
structure SpanContextData where
  traceId : String
  spanId : String
deriving DecidableEq

/-- Behaviour of invoking a callable spanContext accessor: it can throw,
return a falsy value (null/undefined), or return a context object. -/
inductive SpanCall where
  | throws (msg : String)
  | retFalsy
  | ret (c : SpanContextData)
deriving DecidableEq

/-- A JavaScript value, at the granularity the source code distinguishes:
primitives and null/undefined; plain objects without a callable
spanContext accessor; objects with a callable spanContext accessor (the
candidate spans), tagged for identity. -/
inductive Val where
  | null
  | undef
  | str (s : String)
  | num (n : Int)
  | bool (b : Bool)
  | plainObj (tag : Nat)
  | spanObj (tag : Nat) (call : SpanCall)
deriving DecidableEq

/-- JavaScript truthiness for the values of `Val`. -/
def truthyV : Val → Bool
  | .null => false
  | .undef => false
  | .str s => s ≠ ""
  | .num n => n ≠ 0
  | .bool b => b
  | .plainObj _ => true
  | .spanObj _ _ => true

/-- INVALID_TRACEID from @opentelemetry/api: 32 zero characters. -/
def INVALID_TRACEID : String := "00000000000000000000000000000000"

/-- INVALID_SPANID from @opentelemetry/api: 16 zero characters. -/
def INVALID_SPANID : String := "0000000000000000"

/-- isSpan from src/utils.ts (the version imported by the channel,
src/unnamed/part_002 lines 8-29).  The guard rejects non-objects, null,
and objects without a callable spanContext; then the accessor is invoked
(outside any try/catch, so a throw propagates to the caller of isSpan),
and the result must be truthy with truthy trace and span ids, neither
equal to the invalid sentinel. -/
def isSpan : Val → Except String Bool
  | .spanObj _ call =>
    match call with
    | .throws m => .error m
    | .retFalsy => .ok false
    | .ret c =>
      .ok (c.traceId ≠ "" && c.traceId ≠ INVALID_TRACEID
            && c.spanId ≠ "" && c.spanId ≠ INVALID_SPANID)
  | _ => .ok false

/-! ## OpenTelemetry contexts and the context record -/

/-- An OpenTelemetry Context value: an identity for the underlying
context plus the span set on it, if any. -/
structure OtelCtx where
  base : Nat
  currentSpan : Option Val
deriving DecidableEq

/-- trace.setSpan from @opentelemetry/api: a new context derived from the
given one with the span set on it. -/
def setSpan (c : OtelCtx) (s : Val) : OtelCtx :=
  { base := c.base, currentSpan := some s }

/-- A value stored in a field of the caller's context record: either an
ordinary JavaScript value or an OTel Context (the reserved
__otelSpanContext slot holds one of these). -/
inductive FieldVal where
  | v (x : Val)
  | ctx (c : OtelCtx)
deriving DecidableEq

/-- JavaScript truthiness for record field values; a Context object is
always truthy. -/
def truthyF : FieldVal → Bool
  | .v x => truthyV x
  | .ctx _ => true

/-- The mutable context record the caller passes to a traced operation,
modelled as an association list of named fields. -/
abbrev Record := List (String × FieldVal)

/-- Property read, data[key]. -/
def getField : Record → String → Option FieldVal
  | [], _ => none
  | (k, v) :: rest, key => if k = key then some v else getField rest key

/-- Property write, data[key] = val: overwrites an existing field in
place, else appends a new one. -/
def setField : Record → String → FieldVal → Record
  | [], key, val => [(key, val)]
  | (k, v) :: rest, key, val =>
    if k = key then (k, val) :: rest else (k, v) :: setField rest key val

theorem getField_setField_same (r : Record) (k : String) (v : FieldVal) :
    getField (setField r k v) k = some v := by
  induction r with
  | nil => simp [setField, getField]
  | cons hd tl ih =>
    by_cases h : hd.1 = k
    · simp [setField, getField, h]
    · simp [setField, getField, h, ih]

theorem getField_setField_other (r : Record) (k k' : String) (v : FieldVal)
    (hne : k' ≠ k) : getField (setField r k v) k' = getField r k' := by
  induction r with
  | nil => simp [setField, getField, Ne.symm hne]
  | cons hd tl ih =>
    by_cases h : hd.1 = k
    · simp [setField, getField, h, Ne.symm hne]
    · by_cases h' : hd.1 = k'
      · simp [setField, getField, h, h', hne]
      · simp [setField, getField, h, h', ih]

/-! ## The diagnostics_channel collaborator and the channel facade

A subscriber handler receives the (mutable) context record and may read
the ambient active OTel context; it returns the mutated record together
with either its return value or the exception it threw (mutations made
before a throw persist, as in JavaScript). -/

/-- A subscriber handler registered on one sub-channel. -/
abbrev Handler := OtelCtx → Record → Record × Except Val Val

/-- The five sub-channels of a Node.js TracingChannel, each holding its
list of subscribed handlers in subscription order. -/
structure ChannelSubs where
  start : List Handler
  asyncStart : List Handler
  asyncEnd : List Handler
  end_ : List Handler
  error : List Handler

/-- TracingChannel.hasSubscribers: true when any of the five
sub-channels has at least one subscriber. -/
def hasSubscribers (ch : ChannelSubs) : Bool :=
  !(ch.start.isEmpty && ch.asyncStart.isEmpty && ch.asyncEnd.isEmpty
      && ch.end_.isEmpty && ch.error.isEmpty)

/-- Channel.publish of the diagnostics_channel primitive: each subscribed
handler is invoked in order on the shared record; an exception thrown by
a handler is caught by the primitive (and reported asynchronously), so it
neither stops later handlers nor reaches the publisher; mutations made by
every handler remain on the record. -/
def publishOn (hs : List Handler) (amb : OtelCtx) (r : Record) : Record :=
  hs.foldl (fun acc h => (h amb acc).1) r

/-- Lifecycle event names. -/
inductive EvKind where
  | start
  | asyncStart
  | asyncEnd
  | end_
  | error
deriving DecidableEq

/-- Observable steps of one traced invocation: a publish on a named
sub-channel (with the record as passed at publish time), the callback
body beginning execution under a given active value, a context-manager
lookup (capability detection), and a run-with-value entry into the
storage primitive. -/
inductive Event where
  | pub (k : EvKind) (r : Record)
  | callbackRun (active : FieldVal)
  | detect
  | storeRun (active : FieldVal)
deriving DecidableEq

/-- Guarded publish as the engine performs it: only when the sub-channel
has subscribers is the record published (and the publish observed). -/
def pubIf (k : EvKind) (hs : List Handler) (amb : OtelCtx) (r : Record) :
    Record × List Event :=
  if hs.isEmpty then (r, []) else (publishOn hs amb r, [Event.pub k r])

/-- A subscriber record passed to TracingChannel.subscribe /
unsubscribe: up to five optional handlers. -/
structure SubRecord where
  start : Option Handler
  asyncStart : Option Handler
  asyncEnd : Option Handler
  end_ : Option Handler
  error : Option Handler

/-- The wrapped start handler built inside TracingChannel.subscribe
(src/unnamed/part_001 lines 92-108): it invokes the original handler,
then, if the return value passes isSpan, combines the ambient active
context with the returned span via trace.setSpan and stores the result
on the record under the reserved __otelSpanContext field; a non-span
return value only triggers a debug log.  An exception from the original
handler, or from isSpan itself (a throwing spanContext accessor),
propagates out of the wrapper. -/
def wrappedStart (orig : Handler) : Handler := fun amb r =>
  match orig amb r with
  | (r', .error e) => (r', .error e)
  | (r', .ok result) =>
    match isSpan result with
    | .error m => (r', .error (.str m))
    | .ok true =>
      (setField r' "__otelSpanContext" (.ctx (setSpan amb result)), .ok result)
    | .ok false => (r', .ok result)

/-- Append a handler to a sub-channel's list when the subscriber record
provides one (Channel.subscribe appends in subscription order). -/
def addSub (hs : List Handler) : Option Handler → List Handler
  | some h => hs ++ [h]
  | none => hs

/-- TracingChannel.subscribe (src/unnamed/part_001 lines 88-113): a copy
of the subscriber record with the start handler replaced by its wrapper
is registered with the underlying primitive; the other handlers are
registered as given. -/
def subscribe (ch : ChannelSubs) (s : SubRecord) : ChannelSubs where
  start := addSub ch.start (s.start.map wrappedStart)
  asyncStart := addSub ch.asyncStart s.asyncStart
  asyncEnd := addSub ch.asyncEnd s.asyncEnd
  end_ := addSub ch.end_ s.end_
  error := addSub ch.error s.error

/-! ## The OpenTelemetry context-manager lookup -/

/-- Possible outcomes of otelContext._getContextManager(), the reach
into the tracing runtime's internals: the accessor may throw, return a
null/undefined manager, return a manager without an _asyncLocalStorage,
or return a manager exposing its AsyncLocalStorage instance. -/
inductive ManagerLookup where
  | throws (e : Val)
  | nullManager
  | managerNoStorage
  | managerWithStorage (storeId : Nat)
deriving DecidableEq

/-- The environment of one traced invocation: the ambient active OTel
context, and the behaviour of the context-manager lookup during the
invocation. -/
structure Env where
  ambient : OtelCtx
  lookup : ManagerLookup

/-- The TypeError raised by reading ._asyncLocalStorage off a
null/undefined context manager. -/
def typeErrorVal : Val :=
  .str "TypeError: Cannot read properties of null (reading _asyncLocalStorage)"

/-- Truthiness test on the reserved slot, as in if (spanContext). -/
def truthySlot : Option FieldVal → Option FieldVal
  | some fv => if truthyF fv then some fv else none
  | none => none

/-! ## The execution engine -/

/-- The shared catch block of tracePromise and traceSync
(src/unnamed/part_001 lines 190-203 and 232-245): publish the error
event with a shallow copy of the record extended by an error field (the
copy, not the original, is what error handlers receive and may mutate),
then publish end with the original record, then re-raise. -/
def finishError (ch : ChannelSubs) (env : Env) (e : Val) (r : Record)
    (tr : List Event) : Except Val Val × Record × List Event :=
  let errRec := setField r "error" (.v e)
  let t5 := if ch.error.isEmpty then ([] : List Event)
            else [Event.pub .error errRec]
  let s6 := pubIf .end_ ch.end_ env.ambient r
  (.error e, s6.1, tr ++ t5 ++ s6.2)

/-- The success/failure join of tracePromise after the callback
settles: on success publish asyncEnd then end and return the value; on
failure run the catch block. -/
def finishRun (ch : ChannelSubs) (env : Env) (res : Except Val Val)
    (r : Record) (tr : List Event) : Except Val Val × Record × List Event :=
  match res with
  | .ok v =>
    let s3 := pubIf .asyncEnd ch.asyncEnd env.ambient r
    let s4 := pubIf .end_ ch.end_ env.ambient s3.1
    (.ok v, s4.1, tr ++ s3.2 ++ s4.2)
  | .error e => finishError ch env e r tr

/-- The try block of tracePromise (src/unnamed/part_001 lines 149-189),
given the record after the start and asyncStart publishes and the trace
so far: read the reserved __otelSpanContext slot, and if it is truthy
perform a fresh context-manager lookup: a lookup that throws, or a null
manager (dereferenced without a guard), diverts to the catch block; a
manager without storage runs the callback in the ambient context; a
manager with storage runs the callback inside the stored context via
the storage primitive's run-with-value operation.  The callback
observes the active value it runs under. -/
def tracePromiseGo (ch : ChannelSubs) (env : Env)
    (cb : FieldVal → Except Val Val) (r2 : Record) (pre : List Event) :
    Option FieldVal → Except Val Val × Record × List Event
  | some sc =>
    match env.lookup with
    | .throws e => finishError ch env e r2 (pre ++ [Event.detect])
    | .nullManager =>
      finishError ch env typeErrorVal r2 (pre ++ [Event.detect])
    | .managerNoStorage =>
      finishRun ch env (cb (.ctx env.ambient)) r2
        (pre ++ [Event.detect, Event.callbackRun (.ctx env.ambient)])
    | .managerWithStorage _ =>
      finishRun ch env (cb sc) r2
        (pre ++ [Event.detect, Event.storeRun sc, Event.callbackRun sc])
  | none =>
    finishRun ch env (cb (.ctx env.ambient)) r2
      (pre ++ [Event.callbackRun (.ctx env.ambient)])

def tracePromiseTry (ch : ChannelSubs) (env : Env)
    (cb : FieldVal → Except Val Val) (r2 : Record) (pre : List Event) :
    Except Val Val × Record × List Event :=
  tracePromiseGo ch env cb r2 pre (truthySlot (getField r2 "__otelSpanContext"))

/-- TracingChannel.tracePromise (src/unnamed/part_001 lines 132-204):
fast path when no sub-channel has subscribers; otherwise publish start
then asyncStart and enter the try block. -/
def tracePromise (ch : ChannelSubs) (env : Env)
    (cb : FieldVal → Except Val Val) (ctx : Record) :
    Except Val Val × Record × List Event :=
  if hasSubscribers ch = false then
    (cb (.ctx env.ambient), ctx, [Event.callbackRun (.ctx env.ambient)])
  else
    let s1 := pubIf .start ch.start env.ambient ctx
    let s2 := pubIf .asyncStart ch.asyncStart env.ambient s1.1
    tracePromiseTry ch env cb s2.1 (s1.2 ++ s2.2)

/-- TracingChannel.traceSync (src/unnamed/part_001 lines 209-246).
Fast path when no sub-channel has subscribers; otherwise publish start,
invoke the callback directly in the ambient context (no context
threading on the synchronous path), then publish end on success, or run
the shared catch block on failure. -/
def traceSync (ch : ChannelSubs) (env : Env)
    (cb : FieldVal → Except Val Val) (ctx : Record) :
    Except Val Val × Record × List Event :=
  if hasSubscribers ch = false then
    (cb (.ctx env.ambient), ctx, [Event.callbackRun (.ctx env.ambient)])
  else
    let s1 := pubIf .start ch.start env.ambient ctx
    match cb (.ctx env.ambient) with
    | .ok v =>
      let s4 := pubIf .end_ ch.end_ env.ambient s1.1
      (.ok v, s4.1, s1.2 ++ [Event.callbackRun (.ctx env.ambient)] ++ s4.2)
    | .error e =>
      finishError ch env e s1.1
        (s1.2 ++ [Event.callbackRun (.ctx env.ambient)])

/-! ## Subscription registry with function identity

A complementary view of subscribe/unsubscribe (src/unnamed/part_001
lines 88-124) that tracks what the functional view cannot: JavaScript
function-object identity, which Channel.unsubscribe of the
diagnostics_channel primitive uses for removal.  An original handler
function is `fnRef id`; the wrapper closure that subscribe creates
around the original with id `i` is `wrapperOf i` — a fresh function
object, never identical to any original. -/

inductive RegHandler where
  | fnRef (id : Nat)
  | wrapperOf (id : Nat)
deriving DecidableEq

/-- A subscriber record, by the identities of its handler functions. -/
structure SubIds where
  start : Option Nat
  asyncStart : Option Nat
  asyncEnd : Option Nat
  end_ : Option Nat
  error : Option Nat
deriving DecidableEq

/-- Per-sub-channel subscriber arrays of the underlying primitive. -/
structure RegState where
  start : List RegHandler
  asyncStart : List RegHandler
  asyncEnd : List RegHandler
  end_ : List RegHandler
  error : List RegHandler
deriving DecidableEq

/-- Channel.subscribe: appends the handler to the subscriber array. -/
def regAdd (hs : List RegHandler) : Option RegHandler → List RegHandler
  | some h => hs ++ [h]
  | none => hs

/-- Channel.unsubscribe: removes the first array entry identical
(reference-equal) to the given function, if any. -/
def removeFirst : List RegHandler → RegHandler → List RegHandler
  | [], _ => []
  | x :: xs, h => if x = h then xs else x :: removeFirst xs h

def regRemove (hs : List RegHandler) : Option Nat → List RegHandler
  | some i => removeFirst hs (.fnRef i)
  | none => hs

/-- TracingChannel.subscribe, identity view: the start slot of the
registered copy holds the fresh wrapper closure around the original
start handler; every other slot holds the original function. -/
def subscribeReg (st : RegState) (s : SubIds) : RegState where
  start := regAdd st.start (s.start.map RegHandler.wrapperOf)
  asyncStart := regAdd st.asyncStart (s.asyncStart.map RegHandler.fnRef)
  asyncEnd := regAdd st.asyncEnd (s.asyncEnd.map RegHandler.fnRef)
  end_ := regAdd st.end_ (s.end_.map RegHandler.fnRef)
  error := regAdd st.error (s.error.map RegHandler.fnRef)

/-- TracingChannel.unsubscribe (src/unnamed/part_001 lines 118-124):
delegates the caller's original record to the primitive, which removes
by reference identity to the original handler functions. -/
def unsubscribeReg (st : RegState) (s : SubIds) : RegState where
  start := regRemove st.start s.start
  asyncStart := regRemove st.asyncStart s.asyncStart
  asyncEnd := regRemove st.asyncEnd s.asyncEnd
  end_ := regRemove st.end_ s.end_
  error := regRemove st.error s.error

/-! ## Store binding state and channel preparation -/

/-- The argument passed to bindStore/unbindStore: either an actual
AsyncLocalStorage instance (identified by id) or any other value, which
fails the instanceof check. -/
inductive StorageArg where
  | als (id : Nat)
  | notStorage
deriving DecidableEq

/-- The store-binding state of a channel: the facade's _boundStores set
plus the keyed store registry of each of the five sub-channels (the
primitive keeps stores in a map keyed by the store instance, so a store
appears at most once per sub-channel). -/
structure FacadeState where
  boundStores : List Nat
  startStores : List Nat
  asyncStartStores : List Nat
  asyncEndStores : List Nat
  endStores : List Nat
  errorStores : List Nat
deriving DecidableEq

/-- Set/Map-keyed insertion: adding an already-present key is a no-op on
membership. -/
def setAdd (l : List Nat) (i : Nat) : List Nat := if i ∈ l then l else l ++ [i]

/-- Set/Map-keyed deletion. -/
def setDel (l : List Nat) (i : Nat) : List Nat := l.filter (fun x => x ≠ i)

/-- TracingChannel.bindStore (src/unnamed/part_001 lines 51-66): a value
failing the instanceof check raises a TypeError before any mutation;
otherwise the storage is added to _boundStores and bound on all five
sub-channels. -/
def bindStore (st : FacadeState) (s : StorageArg) : Except String FacadeState :=
  match s with
  | .notStorage => .error "TypeError: storage must be an AsyncLocalStorage instance"
  | .als i =>
    .ok { boundStores := setAdd st.boundStores i
          startStores := setAdd st.startStores i
          asyncStartStores := setAdd st.asyncStartStores i
          asyncEndStores := setAdd st.asyncEndStores i
          endStores := setAdd st.endStores i
          errorStores := setAdd st.errorStores i }

/-- TracingChannel.unbindStore (src/unnamed/part_001 lines 71-81): no
validation; deletes from _boundStores and from all five sub-channels
(a miss is a silent no-op in the set and in the primitive). -/
def unbindStore (st : FacadeState) (s : StorageArg) : FacadeState :=
  match s with
  | .notStorage => st
  | .als i =>
    { boundStores := setDel st.boundStores i
      startStores := setDel st.startStores i
      asyncStartStores := setDel st.asyncStartStores i
      asyncEndStores := setDel st.asyncEndStores i
      endStores := setDel st.endStores i
      errorStores := setDel st.errorStores i }

/-- The body of prepChannel (src/unnamed/part_000 lines 5-23) before its
catch clause: the context-manager lookup may throw; a null manager is
guarded by optional chaining; a manager without storage only logs; a
manager with storage has its AsyncLocalStorage bound to the channel. -/
def prepChannelBody (lk : ManagerLookup) (st : FacadeState) :
    Except Val FacadeState :=
  match lk with
  | .throws e => .error e
  | .nullManager => .ok st
  | .managerNoStorage => .ok st
  | .managerWithStorage sid =>
    match bindStore st (.als sid) with
    | .ok st' => .ok st'
    | .error m => .error (.str m)

/-- prepChannel (src/unnamed/part_000 lines 5-23): the whole body sits
in a try/catch whose catch only debug-logs, so the caller always
receives the channel — degraded (unchanged) when anything failed. -/
def prepChannel (lk : ManagerLookup) (st : FacadeState) : FacadeState :=
  match prepChannelBody lk st with
  | .ok st' => st'
  | .error _ => st

/-! ## Observations over invocation traces -/

/-- Tags for the externally observable steps: the five publishes and the
callback beginning; detection and store entry are internal. -/
inductive OTag where
  | tStart
  | tAsyncStart
  | tAsyncEnd
  | tEnd
  | tError
  | tCb
deriving DecidableEq

def obsTag : Event → Option OTag
  | .pub .start _ => some .tStart
  | .pub .asyncStart _ => some .tAsyncStart
  | .pub .asyncEnd _ => some .tAsyncEnd
  | .pub .end_ _ => some .tEnd
  | .pub .error _ => some .tError
  | .callbackRun _ => some .tCb
  | .detect => none
  | .storeRun _ => none

/-- Whether an event is a publish on some sub-channel. -/
def isPubEv : Event → Bool
  | .pub _ _ => true
  | _ => false

/-- The sequence of sub-channel publishes in a trace, in order. -/
def pubKinds (tr : List Event) : List EvKind :=
  tr.filterMap fun ev =>
    match ev with
    | .pub k _ => some k
    | _ => none

/-! ## Claim C4: the span recognizer -/

/-- A spanObj value whose accessor throws, for the C4 counterexample. -/
def throwingSpanVal : Val := .spanObj 0 (.throws "boom")

/-- C4 counterexample: the claim says isSpan never throws and treats an
accessor error as "not a span" (returns false); but on an object whose
spanContext accessor throws, isSpan propagates the error instead of
returning false — the accessor call is outside any try/catch. -/
theorem C4_isSpan_counterexample :
    isSpan throwingSpanVal = Except.error "boom" ∧
    isSpan throwingSpanVal ≠ Except.ok false := by
  refine ⟨rfl, ?_⟩
  intro h
  simp [isSpan, throwingSpanVal] at h

/-- C4 amended: isSpan returns true exactly for non-null objects exposing
a callable spanContext accessor whose invocation yields a truthy context
with non-empty trace and span identifiers distinct from the invalid
sentinels; however, isSpan is not infallible — it raises an error exactly
when the accessor invocation raises one, rather than returning false. -/
theorem C4_isSpan_amended (v : Val) :
    (isSpan v = Except.ok true ↔
      ∃ tag c, v = Val.spanObj tag (SpanCall.ret c) ∧
        c.traceId ≠ "" ∧ c.traceId ≠ INVALID_TRACEID ∧
        c.spanId ≠ "" ∧ c.spanId ≠ INVALID_SPANID) ∧
    (∀ m, isSpan v = Except.error m ↔
      ∃ tag, v = Val.spanObj tag (SpanCall.throws m)) := by
  cases v with
  | spanObj tag call =>
    cases call with
    | throws m' => simp [isSpan]
    | retFalsy => simp [isSpan]
    | ret c =>
      constructor
      · simp only [isSpan, Except.ok.injEq, Bool.and_eq_true, decide_eq_true_eq]
        constructor
        · rintro ⟨⟨⟨h1, h2⟩, h3⟩, h4⟩
          exact ⟨tag, c, rfl, h1, h2, h3, h4⟩
        · rintro ⟨tag', c', heq, h1, h2, h3, h4⟩
          cases heq
          exact ⟨⟨⟨h1, h2⟩, h3⟩, h4⟩
      · simp [isSpan]
  | null => simp [isSpan]
  | undef => simp [isSpan]
  | str s => simp [isSpan]
  | num n => simp [isSpan]
  | bool b => simp [isSpan]
  | plainObj tag => simp [isSpan]

/-! ## Claim C7: subscribe/unsubscribe round trip -/

/-- C7 (code bug): subscribing a record with a start handler (function 1)
and an end handler (function 2) and then unsubscribing the same record
leaves the wrapper around the start handler registered: the primitive
removes by reference identity to the caller's original functions, but
subscribe registered a fresh wrapper closure for start, which is never
identical to the original.  The end handler, registered unwrapped, is
removed.  Later start publishes therefore still invoke the original
start handler through the surviving wrapper. -/
theorem C7_unsubscribe_roundtrip_bug :
    unsubscribeReg
        (subscribeReg ⟨[], [], [], [], []⟩ ⟨some 1, none, none, some 2, none⟩)
        ⟨some 1, none, none, some 2, none⟩
      = ⟨[RegHandler.wrapperOf 1], [], [], [], []⟩ ∧
    RegHandler.wrapperOf 1 ∈
      (unsubscribeReg
        (subscribeReg ⟨[], [], [], [], []⟩ ⟨some 1, none, none, some 2, none⟩)
        ⟨some 1, none, none, some 2, none⟩).start := by
  decide

/-! ## Claim C8: bindStore/unbindStore -/

theorem mem_setAdd_self (l : List Nat) (i : Nat) : i ∈ setAdd l i := by
  by_cases h : i ∈ l <;> simp [setAdd, h]

theorem setAdd_of_mem {l : List Nat} {i : Nat} (h : i ∈ l) :
    setAdd l i = l := by
  simp [setAdd, h]

theorem nodup_setAdd {l : List Nat} (i : Nat) (h : l.Nodup) :
    (setAdd l i).Nodup := by
  by_cases hm : i ∈ l
  · simpa [setAdd, hm] using h
  · simp only [setAdd, hm, if_false]
    exact List.Nodup.append h (List.nodup_singleton i)
      (fun a ha hai => hm (List.mem_singleton.mp hai ▸ ha))

theorem not_mem_setDel (l : List Nat) (i : Nat) : i ∉ setDel l i := by
  simp [setDel]

/-- C8: binding is validated before mutation (a non-storage argument
yields a TypeError with no state produced), the Bound Storage Set keeps
at most one entry per storage, a second bind of the same storage is a
no-op on the whole state, and one unbind after a double bind removes
the storage from the set and from all five sub-channel registries. -/
theorem C8_bindStore_unbindStore_idempotent (st : FacadeState) (i : Nat)
    (hwf : st.boundStores.Nodup) :
    bindStore st .notStorage
        = .error "TypeError: storage must be an AsyncLocalStorage instance" ∧
    ∃ st1, bindStore st (.als i) = .ok st1 ∧
      bindStore st1 (.als i) = .ok st1 ∧
      st1.boundStores.count i ≤ 1 ∧
      i ∉ (unbindStore st1 (.als i)).boundStores ∧
      i ∉ (unbindStore st1 (.als i)).startStores ∧
      i ∉ (unbindStore st1 (.als i)).asyncStartStores ∧
      i ∉ (unbindStore st1 (.als i)).asyncEndStores ∧
      i ∉ (unbindStore st1 (.als i)).endStores ∧
      i ∉ (unbindStore st1 (.als i)).errorStores := by
  refine ⟨rfl, ⟨_, rfl, ?_, ?_, ?_, ?_, ?_, ?_, ?_, ?_⟩⟩
  · simp [bindStore, setAdd_of_mem (mem_setAdd_self _ _)]
  · exact List.nodup_iff_count_le_one.mp (nodup_setAdd i hwf) i
  · exact not_mem_setDel _ _
  · exact not_mem_setDel _ _
  · exact not_mem_setDel _ _
  · exact not_mem_setDel _ _
  · exact not_mem_setDel _ _
  · exact not_mem_setDel _ _

/-- C8 witness: the idempotence property evaluated on the empty channel
state and storage 0. -/
theorem C8_bindStore_unbindStore_idempotent_witness :
    (([] : List Nat).Nodup) ∧
    (bindStore ⟨[], [], [], [], [], []⟩ .notStorage
        = .error "TypeError: storage must be an AsyncLocalStorage instance" ∧
      ∃ st1, bindStore ⟨[], [], [], [], [], []⟩ (.als 0) = .ok st1 ∧
        bindStore st1 (.als 0) = .ok st1 ∧
        st1.boundStores.count 0 ≤ 1 ∧
        0 ∉ (unbindStore st1 (.als 0)).boundStores ∧
        0 ∉ (unbindStore st1 (.als 0)).startStores ∧
        0 ∉ (unbindStore st1 (.als 0)).asyncStartStores ∧
        0 ∉ (unbindStore st1 (.als 0)).asyncEndStores ∧
        0 ∉ (unbindStore st1 (.als 0)).endStores ∧
        0 ∉ (unbindStore st1 (.als 0)).errorStores) :=
  ⟨List.nodup_nil,
    C8_bindStore_unbindStore_idempotent ⟨[], [], [], [], [], []⟩ 0 List.nodup_nil⟩

/-! ## Engine lemmas -/

theorem hasSubscribers_of_error {ch : ChannelSubs}
    (hE : ch.error.isEmpty = false) : hasSubscribers ch = true := by
  simp [hasSubscribers, hE]

theorem hasSubscribers_of_start {ch : ChannelSubs}
    (hS : ch.start.isEmpty = false) : hasSubscribers ch = true := by
  simp [hasSubscribers, hS]

theorem finishError_fst (ch : ChannelSubs) (env : Env) (e : Val)
    (r : Record) (tr : List Event) :
    (finishError ch env e r tr).1 = .error e := by
  simp [finishError]

theorem finishRun_fst (ch : ChannelSubs) (env : Env) (res : Except Val Val)
    (r : Record) (tr : List Event) : (finishRun ch env res r tr).1 = res := by
  cases res <;> simp [finishRun, finishError]

theorem finishError_eq (ch : ChannelSubs) (env : Env) (e : Val) (r : Record)
    (tr : List Event) (hE : ch.error.isEmpty = false)
    (hEnd : ch.end_.isEmpty = false) :
    finishError ch env e r tr
      = (.error e, publishOn ch.end_ env.ambient r,
         tr ++ [Event.pub .error (setField r "error" (.v e)),
                Event.pub .end_ r]) := by
  simp [finishError, pubIf, hE, hEnd]

theorem finishRun_ok_eq (ch : ChannelSubs) (env : Env) (v : Val)
    (r : Record) (tr : List Event) (h3 : ch.asyncEnd.isEmpty = false)
    (h4 : ch.end_.isEmpty = false) :
    finishRun ch env (.ok v) r tr
      = (.ok v,
         publishOn ch.end_ env.ambient (publishOn ch.asyncEnd env.ambient r),
         tr ++ [Event.pub .asyncEnd r,
                Event.pub .end_ (publishOn ch.asyncEnd env.ambient r)]) := by
  simp [finishRun, pubIf, h3, h4]

theorem finishRun_trace_prefix (ch : ChannelSubs) (env : Env)
    (res : Except Val Val) (r : Record) (tr : List Event) :
    ∃ rest, (finishRun ch env res r tr).2.2 = tr ++ rest := by
  cases res with
  | ok v =>
    exact ⟨(pubIf .asyncEnd ch.asyncEnd env.ambient r).2
        ++ (pubIf .end_ ch.end_ env.ambient
              (pubIf .asyncEnd ch.asyncEnd env.ambient r).1).2,
      by simp [finishRun]⟩
  | error e =>
    exact ⟨(if ch.error.isEmpty then []
            else [Event.pub .error (setField r "error" (.v e))])
        ++ (pubIf .end_ ch.end_ env.ambient r).2,
      by simp [finishError, finishRun]⟩

theorem finishError_shape (ch : ChannelSubs) (env : Env) (e : Val)
    (r : Record) (tr : List Event) (hE : ch.error.isEmpty = false)
    (hEnd : ch.end_.isEmpty = false) :
    ∃ pre2, (finishError ch env e r tr).2.2
        = pre2 ++ [Event.pub .error (setField r "error" (.v e)),
                   Event.pub .end_ r] :=
  ⟨tr, by rw [finishError_eq _ _ _ _ _ hE hEnd]⟩

theorem finishRun_error_shape (ch : ChannelSubs) (env : Env)
    (res : Except Val Val) (r : Record) (tr : List Event) (w : Val)
    (hE : ch.error.isEmpty = false) (hEnd : ch.end_.isEmpty = false)
    (hres : (finishRun ch env res r tr).1 = .error w) :
    ∃ pre2, (finishRun ch env res r tr).2.2
        = pre2 ++ [Event.pub .error (setField r "error" (.v w)),
                   Event.pub .end_ r] := by
  cases res with
  | ok v => rw [finishRun_fst] at hres; cases hres
  | error e =>
    rw [finishRun_fst] at hres
    cases hres
    exact finishError_shape ch env w r tr hE hEnd

/-- Whatever path the try block takes, the error/end publishes on a
rejection close the trace with the shallow error copy of the
pre-callback record followed by that record itself. -/
theorem tracePromiseGo_error_shape (ch : ChannelSubs) (env : Env)
    (cb : FieldVal → Except Val Val) (r2 : Record) (pre : List Event)
    (slot : Option FieldVal) (w : Val)
    (hE : ch.error.isEmpty = false) (hEnd : ch.end_.isEmpty = false)
    (hres : (tracePromiseGo ch env cb r2 pre slot).1 = .error w) :
    ∃ pre2, (tracePromiseGo ch env cb r2 pre slot).2.2
        = pre2 ++ [Event.pub .error (setField r2 "error" (.v w)),
                   Event.pub .end_ r2] := by
  obtain ⟨amb, lk⟩ := env
  cases slot with
  | none =>
    simp only [tracePromiseGo] at hres ⊢
    exact finishRun_error_shape _ _ _ _ _ _ hE hEnd hres
  | some sc =>
    cases lk <;> simp only [tracePromiseGo] at hres ⊢
    · exact (Except.error.inj hres) ▸ finishError_shape _ _ _ _ _ hE hEnd
    · exact (Except.error.inj hres) ▸ finishError_shape _ _ _ _ _ hE hEnd
    · exact finishRun_error_shape _ _ _ _ _ _ hE hEnd hres
    · exact finishRun_error_shape _ _ _ _ _ _ hE hEnd hres

/-! ## Claim C5: synchronous error ordering -/

/-- C5: with start, error and end subscribed and a throwing callback,
traceSync publishes exactly start, then error, then end (in that order,
once each, and no other lifecycle publishes), and re-raises the
identical error value the callback threw. -/
theorem C5_traceSync_error_order (ch : ChannelSubs) (env : Env)
    (cb : FieldVal → Except Val Val) (ctx : Record) (e : Val)
    (hS : ch.start.isEmpty = false) (hE : ch.error.isEmpty = false)
    (hEnd : ch.end_.isEmpty = false)
    (hcb : cb (.ctx env.ambient) = .error e) :
    (traceSync ch env cb ctx).1 = .error e ∧
    pubKinds (traceSync ch env cb ctx).2.2
      = [EvKind.start, EvKind.error, EvKind.end_] := by
  have hhas : hasSubscribers ch = true := hasSubscribers_of_start hS
  constructor
  · simp [traceSync, hhas, hcb, finishError]
  · simp [traceSync, hhas, hcb, finishError, pubIf, hS, hE, hEnd, pubKinds,
      obsTag]

/-- A concrete handler that leaves the record alone and returns
undefined. -/
def idHandler : Handler := fun _ r => (r, .ok .undef)

/-- A concrete environment: ambient root context, manager present but
without an accessible AsyncLocalStorage. -/
def envNoStore : Env := ⟨⟨0, none⟩, .managerNoStorage⟩

/-- C5 witness: the ordering property evaluated on a concrete channel
with one handler on each of start, end and error, and a callback that
throws the string "x". -/
theorem C5_traceSync_error_order_witness :
    ((⟨[idHandler], [], [], [idHandler], [idHandler]⟩ : ChannelSubs).start.isEmpty
        = false) ∧
    ((fun _ => Except.error (Val.str "x") : FieldVal → Except Val Val)
        (.ctx envNoStore.ambient) = .error (Val.str "x")) ∧
    ((traceSync ⟨[idHandler], [], [], [idHandler], [idHandler]⟩ envNoStore
        (fun _ => Except.error (Val.str "x")) []).1 = .error (Val.str "x") ∧
      pubKinds (traceSync ⟨[idHandler], [], [], [idHandler], [idHandler]⟩
          envNoStore (fun _ => Except.error (Val.str "x")) []).2.2
        = [EvKind.start, EvKind.error, EvKind.end_]) :=
  ⟨rfl, rfl,
    C5_traceSync_error_order ⟨[idHandler], [], [], [idHandler], [idHandler]⟩
      envNoStore (fun _ => Except.error (Val.str "x")) [] (Val.str "x")
      rfl rfl rfl rfl⟩

/-! ## Claim C6: the error-event record -/

/-- C6: on a failing traceSync or tracePromise invocation with error and
end subscribed, the record published on the error event is the shallow
copy of the record as it stood before the failure, extended with an
error field holding the identical thrown/rejected value; every other
field of the copy reads back exactly as on the original; and the
subsequent end event receives the original record itself (which never
gained an error field from the publication). -/
theorem C6_error_record_shape (ch : ChannelSubs) (env : Env)
    (cb : FieldVal → Except Val Val) (ctx : Record) (e : Val)
    (hE : ch.error.isEmpty = false) (hEnd : ch.end_.isEmpty = false) :
    (cb (.ctx env.ambient) = .error e →
      (traceSync ch env cb ctx).1 = .error e ∧
      (traceSync ch env cb ctx).2.2
        = (pubIf .start ch.start env.ambient ctx).2
            ++ [Event.callbackRun (.ctx env.ambient),
                Event.pub .error
                  (setField (pubIf .start ch.start env.ambient ctx).1
                    "error" (.v e)),
                Event.pub .end_ (pubIf .start ch.start env.ambient ctx).1] ∧
      (∀ k, k ≠ "error" →
        getField (setField (pubIf .start ch.start env.ambient ctx).1
            "error" (.v e)) k
          = getField (pubIf .start ch.start env.ambient ctx).1 k) ∧
      getField (setField (pubIf .start ch.start env.ambient ctx).1
          "error" (.v e)) "error" = some (.v e)) ∧
    (∀ w, (tracePromise ch env cb ctx).1 = .error w →
      ∃ pre2,
        (tracePromise ch env cb ctx).2.2
          = pre2
              ++ [Event.pub .error
                    (setField (pubIf .asyncStart ch.asyncStart env.ambient
                        (pubIf .start ch.start env.ambient ctx).1).1
                      "error" (.v w)),
                  Event.pub .end_
                    (pubIf .asyncStart ch.asyncStart env.ambient
                        (pubIf .start ch.start env.ambient ctx).1).1] ∧
        (∀ k, k ≠ "error" →
          getField (setField (pubIf .asyncStart ch.asyncStart env.ambient
              (pubIf .start ch.start env.ambient ctx).1).1 "error" (.v w)) k
            = getField (pubIf .asyncStart ch.asyncStart env.ambient
                (pubIf .start ch.start env.ambient ctx).1).1 k) ∧
        getField (setField (pubIf .asyncStart ch.asyncStart env.ambient
            (pubIf .start ch.start env.ambient ctx).1).1 "error" (.v w))
          "error" = some (.v w)) := by
  have hhas : hasSubscribers ch = true := hasSubscribers_of_error hE
  constructor
  · intro hcb
    refine ⟨?_, ?_, fun k hk => getField_setField_other _ _ _ _ hk,
      getField_setField_same _ _ _⟩
    · simp [traceSync, hhas, hcb, finishError]
    · simp [traceSync, hhas, hcb, finishError, pubIf, hE, hEnd]
  · intro w hres
    have hres' : (tracePromiseTry ch env cb
        (pubIf .asyncStart ch.asyncStart env.ambient
          (pubIf .start ch.start env.ambient ctx).1).1
        ((pubIf .start ch.start env.ambient ctx).2
          ++ (pubIf .asyncStart ch.asyncStart env.ambient
              (pubIf .start ch.start env.ambient ctx).1).2)).1 = .error w := by
      rw [show tracePromise ch env cb ctx = tracePromiseTry ch env cb
          (pubIf .asyncStart ch.asyncStart env.ambient
            (pubIf .start ch.start env.ambient ctx).1).1
          ((pubIf .start ch.start env.ambient ctx).2
            ++ (pubIf .asyncStart ch.asyncStart env.ambient
                (pubIf .start ch.start env.ambient ctx).1).2)
        from by simp [tracePromise, hhas]] at hres
      exact hres
    obtain ⟨pre2, hpre2⟩ := tracePromiseGo_error_shape ch env cb _ _ _ w
      hE hEnd hres'
    refine ⟨pre2, ?_, fun k hk => getField_setField_other _ _ _ _ hk,
      getField_setField_same _ _ _⟩
    rw [show tracePromise ch env cb ctx = tracePromiseTry ch env cb
        (pubIf .asyncStart ch.asyncStart env.ambient
          (pubIf .start ch.start env.ambient ctx).1).1
        ((pubIf .start ch.start env.ambient ctx).2
          ++ (pubIf .asyncStart ch.asyncStart env.ambient
              (pubIf .start ch.start env.ambient ctx).1).2)
      from by simp [tracePromise, hhas]]
    exact hpre2

/-! ## Claim C2: asynchronous event ordering -/

theorem filterMap_obsTag_finishRun_ok (ch : ChannelSubs) (env : Env)
    (v : Val) (r : Record) (tr : List Event)
    (h3 : ch.asyncEnd.isEmpty = false) (h4 : ch.end_.isEmpty = false) :
    ((finishRun ch env (.ok v) r tr).2.2).filterMap obsTag
      = tr.filterMap obsTag ++ [OTag.tAsyncEnd, OTag.tEnd] := by
  rw [finishRun_ok_eq _ _ _ _ _ h3 h4]
  simp [obsTag]

/-- On a path whose overall result is a success, the try block's
observable steps are the pre-callback publishes, then the callback
beginning, then the asyncEnd and end publishes. -/
theorem tracePromiseGo_ok_obs (ch : ChannelSubs) (env : Env)
    (cb : FieldVal → Except Val Val) (r2 : Record) (pre : List Event)
    (slot : Option FieldVal) (v : Val)
    (h3 : ch.asyncEnd.isEmpty = false) (h4 : ch.end_.isEmpty = false)
    (hres : (tracePromiseGo ch env cb r2 pre slot).1 = .ok v) :
    ((tracePromiseGo ch env cb r2 pre slot).2.2).filterMap obsTag
      = pre.filterMap obsTag ++ [OTag.tCb, OTag.tAsyncEnd, OTag.tEnd] := by
  obtain ⟨amb, lk⟩ := env
  cases slot with
  | none =>
    simp only [tracePromiseGo] at hres ⊢
    cases hcb : cb (.ctx amb) with
    | ok v' =>
      rw [filterMap_obsTag_finishRun_ok _ _ _ _ _ h3 h4]
      simp [obsTag]
    | error e => simp [finishRun_fst, hcb] at hres
  | some sc =>
    cases lk with
    | throws e =>
      simp only [tracePromiseGo] at hres
      rw [finishError_fst] at hres; cases hres
    | nullManager =>
      simp only [tracePromiseGo] at hres
      rw [finishError_fst] at hres; cases hres
    | managerNoStorage =>
      simp only [tracePromiseGo] at hres ⊢
      cases hcb : cb (.ctx amb) with
      | ok v' =>
        rw [filterMap_obsTag_finishRun_ok _ _ _ _ _ h3 h4]
        simp [obsTag]
      | error e => simp [finishRun_fst, hcb] at hres
    | managerWithStorage sid =>
      simp only [tracePromiseGo] at hres ⊢
      cases hcb : cb sc with
      | ok v' =>
        rw [filterMap_obsTag_finishRun_ok _ _ _ _ _ h3 h4]
        simp [obsTag]
      | error e => simp [finishRun_fst, hcb] at hres

/-- A channel with one handler subscribed on each of the five
sub-channels. -/
def chAll : ChannelSubs :=
  ⟨[idHandler], [idHandler], [idHandler], [idHandler], [idHandler]⟩

/-- A callback that resolves with 1. -/
def cbOk1 : FieldVal → Except Val Val := fun _ => .ok (.num 1)

/-- C2 counterexample: on a successful asynchronous invocation with all
handlers subscribed, the observable order is start, asyncStart, then
the callback body, then asyncEnd, then end — the code publishes
asyncStart before the callback runs and end last, not the claimed
start, callback, end, asyncStart, asyncEnd. -/
theorem C2_event_order_counterexample :
    ((tracePromise chAll envNoStore cbOk1 []).2.2).filterMap obsTag
      = [OTag.tStart, OTag.tAsyncStart, OTag.tCb, OTag.tAsyncEnd, OTag.tEnd] ∧
    ((tracePromise chAll envNoStore cbOk1 []).2.2).filterMap obsTag
      ≠ [OTag.tStart, OTag.tCb, OTag.tEnd, OTag.tAsyncStart, OTag.tAsyncEnd] := by
  decide

/-- C2 amended: for every successful asynchronous invocation with the
four lifecycle handlers subscribed, the events are published exactly
once each, in the order start, asyncStart, then the callback body
begins, then asyncEnd, then end (no error publish). -/
theorem C2_event_order_amended (ch : ChannelSubs) (env : Env)
    (cb : FieldVal → Except Val Val) (ctx : Record) (v : Val)
    (h1 : ch.start.isEmpty = false) (h2 : ch.asyncStart.isEmpty = false)
    (h3 : ch.asyncEnd.isEmpty = false) (h4 : ch.end_.isEmpty = false)
    (hres : (tracePromise ch env cb ctx).1 = .ok v) :
    ((tracePromise ch env cb ctx).2.2).filterMap obsTag
      = [OTag.tStart, OTag.tAsyncStart, OTag.tCb, OTag.tAsyncEnd,
         OTag.tEnd] := by
  have hhas : hasSubscribers ch = true := hasSubscribers_of_start h1
  have heq : tracePromise ch env cb ctx
      = tracePromiseGo ch env cb
          (pubIf .asyncStart ch.asyncStart env.ambient
            (pubIf .start ch.start env.ambient ctx).1).1
          ((pubIf .start ch.start env.ambient ctx).2
            ++ (pubIf .asyncStart ch.asyncStart env.ambient
                (pubIf .start ch.start env.ambient ctx).1).2)
          (truthySlot (getField
            (pubIf .asyncStart ch.asyncStart env.ambient
              (pubIf .start ch.start env.ambient ctx).1).1
            "__otelSpanContext")) := by
    simp [tracePromise, tracePromiseTry, hhas]
  rw [heq] at hres ⊢
  rw [tracePromiseGo_ok_obs _ _ _ _ _ _ v h3 h4 hres]
  simp [pubIf, h1, h2, obsTag]

/-- C2 amended witness: the order evaluated on the concrete channel with
a handler on every sub-channel and a callback resolving with 1. -/
theorem C2_event_order_amended_witness :
    chAll.start.isEmpty = false ∧
    (tracePromise chAll envNoStore cbOk1 []).1 = .ok (.num 1) ∧
    ((tracePromise chAll envNoStore cbOk1 []).2.2).filterMap obsTag
      = [OTag.tStart, OTag.tAsyncStart, OTag.tCb, OTag.tAsyncEnd,
         OTag.tEnd] :=
  ⟨rfl, rfl,
    C2_event_order_amended chAll envNoStore cbOk1 [] (.num 1)
      rfl rfl rfl rfl rfl⟩

/-! ## Claim C3: outcome preservation -/

/-- A span value with valid (non-sentinel, non-empty) identifiers. -/
def spanValid : Val :=
  .spanObj 7 (.ret ⟨"11111111111111111111111111111111", "1111111111111111"⟩)

/-- A start handler returning a valid span without touching the
record. -/
def startSpanHandler : Handler := fun _ r => (r, .ok spanValid)

/-- A subscriber record with only a start handler. -/
def subSpanOnly : SubRecord := ⟨some startSpanHandler, none, none, none, none⟩

/-- The channel obtained by subscribing only the span-returning start
handler. -/
def chSpan : ChannelSubs := subscribe ⟨[], [], [], [], []⟩ subSpanOnly

/-- An environment whose context-manager lookup itself throws (a broken
tracing runtime). -/
def envBroken : Env := ⟨⟨0, none⟩, .throws (.str "runtime broken")⟩

/-- A callback that resolves with 42 regardless of the active context. -/
def cb42 : FieldVal → Except Val Val := fun _ => .ok (.num 42)

/-- C3 counterexample: with a start handler returning a valid span and a
tracing runtime whose context-manager lookup throws, tracePromise
rejects with the lookup failure although the callback would have
resolved with 42 — a broken tracing runtime changes the functional
outcome, because the per-invocation lookup sits inside the engine's try
block with no guard of its own. -/
theorem C3_outcome_counterexample :
    cb42 (.ctx envBroken.ambient) = .ok (.num 42) ∧
    (tracePromise chSpan envBroken cb42 []).1
      = .error (.str "runtime broken") ∧
    (tracePromise chSpan envBroken cb42 []).1
      ≠ cb42 (.ctx envBroken.ambient) := by
  decide

/-- Whether the context-manager lookup yields a manager object (possibly
without storage); false when the lookup throws or yields null. -/
def lookupOk : ManagerLookup → Bool
  | .throws _ => false
  | .nullManager => false
  | .managerNoStorage => true
  | .managerWithStorage _ => true

/-- traceSync always returns exactly the callback's outcome. -/
theorem traceSync_fst (ch : ChannelSubs) (env : Env)
    (cb : FieldVal → Except Val Val) (ctx : Record) :
    (traceSync ch env cb ctx).1 = cb (.ctx env.ambient) := by
  by_cases hhas : hasSubscribers ch = false
  · simp [traceSync, hhas]
  · cases hcb : cb (.ctx env.ambient) with
    | ok v => simp [traceSync, hhas, hcb]
    | error e => simp [traceSync, hhas, hcb, finishError]

theorem tracePromiseGo_fst_ok_config (ch : ChannelSubs) (env : Env)
    (cb : FieldVal → Except Val Val) (r2 : Record) (pre : List Event)
    (slot : Option FieldVal)
    (hcb : ∀ a b : FieldVal, cb a = cb b)
    (hlk : lookupOk env.lookup = true) :
    (tracePromiseGo ch env cb r2 pre slot).1 = cb (.ctx env.ambient) := by
  obtain ⟨amb, lk⟩ := env
  cases slot with
  | none => exact finishRun_fst _ _ _ _ _
  | some sc =>
    cases lk with
    | throws e => simp [lookupOk] at hlk
    | nullManager => simp [lookupOk] at hlk
    | managerNoStorage => exact finishRun_fst _ _ _ _ _
    | managerWithStorage sid =>
      simp only [tracePromiseGo]
      rw [finishRun_fst]
      exact hcb sc _

/-- C3 amended: tracing is outcome-transparent for every callback whose
settlement does not depend on the active context, for every subscriber
configuration, provided that whenever the reserved span-context slot is
inspected the context-manager lookup yields a manager object (possibly
one without storage).  traceSync is outcome-transparent unconditionally,
and with no subscribers at all no event is published on any sub-channel
by either entry point. -/
theorem C3_outcome_preservation_amended (ch : ChannelSubs) (env : Env)
    (cb : FieldVal → Except Val Val) (ctx : Record)
    (hcb : ∀ a b : FieldVal, cb a = cb b)
    (hlk : lookupOk env.lookup = true) :
    (traceSync ch env cb ctx).1 = cb (.ctx env.ambient) ∧
    (tracePromise ch env cb ctx).1 = cb (.ctx env.ambient) ∧
    (hasSubscribers ch = false →
      (traceSync ch env cb ctx).2.2.filter isPubEv = [] ∧
      (tracePromise ch env cb ctx).2.2.filter isPubEv = []) := by
  refine ⟨traceSync_fst ch env cb ctx, ?_, ?_⟩
  · by_cases hhas : hasSubscribers ch = false
    · simp [tracePromise, hhas]
    · have heq : tracePromise ch env cb ctx
          = tracePromiseGo ch env cb
              (pubIf .asyncStart ch.asyncStart env.ambient
                (pubIf .start ch.start env.ambient ctx).1).1
              ((pubIf .start ch.start env.ambient ctx).2
                ++ (pubIf .asyncStart ch.asyncStart env.ambient
                    (pubIf .start ch.start env.ambient ctx).1).2)
              (truthySlot (getField
                (pubIf .asyncStart ch.asyncStart env.ambient
                  (pubIf .start ch.start env.ambient ctx).1).1
                "__otelSpanContext")) := by
        simp [tracePromise, tracePromiseTry, hhas]
      rw [heq]
      exact tracePromiseGo_fst_ok_config _ _ _ _ _ _ hcb hlk
  · intro hhas
    constructor <;> simp [traceSync, tracePromise, hhas, isPubEv]

/-- C3 amended witness: the preservation property evaluated with no
subscribers, a storage-less manager, and the constant callback 42. -/
theorem C3_outcome_preservation_amended_witness :
    lookupOk envNoStore.lookup = true ∧
    (traceSync ⟨[], [], [], [], []⟩ envNoStore cb42 []).1 = .ok (.num 42) ∧
    (tracePromise ⟨[], [], [], [], []⟩ envNoStore cb42 []).1
      = .ok (.num 42) ∧
    (traceSync ⟨[], [], [], [], []⟩ envNoStore cb42 []).2.2.filter isPubEv
      = [] ∧
    (tracePromise ⟨[], [], [], [], []⟩ envNoStore cb42 []).2.2.filter isPubEv
      = [] :=
  ⟨rfl,
    (C3_outcome_preservation_amended ⟨[], [], [], [], []⟩ envNoStore cb42 []
      (fun _ _ => rfl) rfl).1,
    (C3_outcome_preservation_amended ⟨[], [], [], [], []⟩ envNoStore cb42 []
      (fun _ _ => rfl) rfl).2.1,
    ((C3_outcome_preservation_amended ⟨[], [], [], [], []⟩ envNoStore cb42 []
      (fun _ _ => rfl) rfl).2.2 rfl).1,
    ((C3_outcome_preservation_amended ⟨[], [], [], [], []⟩ envNoStore cb42 []
      (fun _ _ => rfl) rfl).2.2 rfl).2⟩

/-! ## Claim C1: span context capture and propagation -/

/-- Under a single subscribed span-returning start handler with no
asyncStart handler, tracePromise reduces to the try block entered with
the span-extended record, the start publish in the trace, and the truthy
stored slot. -/
theorem tracePromise_span_subscribed_eq (s : SubRecord) (orig : Handler)
    (env : Env) (cb : FieldVal → Except Val Val) (ctx : Record)
    (r' : Record) (v : Val)
    (hstart : s.start = some orig)
    (hasync : s.asyncStart = none)
    (horig : orig env.ambient ctx = (r', Except.ok v))
    (hspan : isSpan v = .ok true) :
    tracePromise (subscribe ⟨[], [], [], [], []⟩ s) env cb ctx
      = tracePromiseGo (subscribe ⟨[], [], [], [], []⟩ s) env cb
          (setField r' "__otelSpanContext" (.ctx (setSpan env.ambient v)))
          [Event.pub .start ctx]
          (some (.ctx (setSpan env.ambient v))) := by
  have hwrap : wrappedStart orig env.ambient ctx
      = (setField r' "__otelSpanContext" (.ctx (setSpan env.ambient v)),
         .ok v) := by
    simp [wrappedStart, horig, hspan]
  have hch : (subscribe ⟨[], [], [], [], []⟩ s).start
      = [wrappedStart orig] := by
    simp [subscribe, hstart, addSub]
  have hch2 : (subscribe ⟨[], [], [], [], []⟩ s).asyncStart = [] := by
    simp [subscribe, hasync, addSub]
  have hhas : hasSubscribers (subscribe ⟨[], [], [], [], []⟩ s) = true :=
    hasSubscribers_of_start (by rw [hch]; rfl)
  have hs1 : pubIf .start (subscribe ⟨[], [], [], [], []⟩ s).start
      env.ambient ctx
      = (setField r' "__otelSpanContext" (.ctx (setSpan env.ambient v)),
         [Event.pub .start ctx]) := by
    rw [hch]
    simp [pubIf, publishOn, hwrap]
  have hs2 : pubIf .asyncStart (subscribe ⟨[], [], [], [], []⟩ s).asyncStart
      env.ambient
      (setField r' "__otelSpanContext" (.ctx (setSpan env.ambient v)))
      = (setField r' "__otelSpanContext" (.ctx (setSpan env.ambient v)),
         []) := by
    rw [hch2]
    simp [pubIf]
  simp only [tracePromise, hhas, Bool.true_eq_false, if_false,
    tracePromiseTry]
  rw [hs1, hs2]
  simp [truthySlot, truthyF, getField_setField_same]

/-- C1: when the subscribed start handler returns a value passing the
span recognizer, the wrapper stores on the context record, under the
reserved __otelSpanContext field, the combination of the ambient active
context with the returned span; and tracePromise (with the
context-manager storage available) enters the storage primitive's
run-with-value operation with that stored context and runs the callback
inside it, directly after the start publish and the per-invocation
manager lookup. -/
theorem C1_span_context_stored_and_used (s : SubRecord) (orig : Handler)
    (env : Env) (cb : FieldVal → Except Val Val) (ctx : Record)
    (r' : Record) (v : Val) (sid : Nat)
    (hstart : s.start = some orig)
    (hasync : s.asyncStart = none)
    (horig : orig env.ambient ctx = (r', Except.ok v))
    (hspan : isSpan v = .ok true)
    (hlook : env.lookup = .managerWithStorage sid) :
    getField ((wrappedStart orig) env.ambient ctx).1 "__otelSpanContext"
        = some (.ctx (setSpan env.ambient v)) ∧
    ∃ tail, (tracePromise (subscribe ⟨[], [], [], [], []⟩ s) env cb ctx).2.2
        = Event.pub .start ctx :: Event.detect
            :: Event.storeRun (.ctx (setSpan env.ambient v))
            :: Event.callbackRun (.ctx (setSpan env.ambient v)) :: tail := by
  have hwrap : wrappedStart orig env.ambient ctx
      = (setField r' "__otelSpanContext" (.ctx (setSpan env.ambient v)),
         .ok v) := by
    simp [wrappedStart, horig, hspan]
  constructor
  · rw [hwrap]
    exact getField_setField_same _ _ _
  · rw [tracePromise_span_subscribed_eq s orig env cb ctx r' v
      hstart hasync horig hspan]
    simp only [tracePromiseGo, hlook]
    obtain ⟨rest, hrest⟩ := finishRun_trace_prefix
      (subscribe ⟨[], [], [], [], []⟩ s) env
      (cb (.ctx (setSpan env.ambient v)))
      (setField r' "__otelSpanContext" (.ctx (setSpan env.ambient v)))
      ([Event.pub .start ctx]
        ++ [Event.detect, Event.storeRun (.ctx (setSpan env.ambient v)),
            Event.callbackRun (.ctx (setSpan env.ambient v))])
    exact ⟨rest, by rw [hrest]; simp⟩

/-- An environment with the OTel AsyncLocalStorage reachable. -/
def envStore : Env := ⟨⟨0, none⟩, .managerWithStorage 0⟩

/-- C1 witness: the capture-and-propagate property evaluated on the
concrete span-returning start handler. -/
theorem C1_span_context_stored_and_used_witness :
    subSpanOnly.start = some startSpanHandler ∧
    startSpanHandler envStore.ambient [] = ([], Except.ok spanValid) ∧
    isSpan spanValid = .ok true ∧
    getField ((wrappedStart startSpanHandler) envStore.ambient []).1
        "__otelSpanContext" = some (.ctx (setSpan envStore.ambient spanValid)) ∧
    ∃ tail, (tracePromise (subscribe ⟨[], [], [], [], []⟩ subSpanOnly)
        envStore cb42 []).2.2
        = Event.pub .start [] :: Event.detect
            :: Event.storeRun (.ctx (setSpan envStore.ambient spanValid))
            :: Event.callbackRun (.ctx (setSpan envStore.ambient spanValid))
            :: tail :=
  ⟨rfl, rfl, rfl,
    (C1_span_context_stored_and_used subSpanOnly startSpanHandler envStore
      cb42 [] [] spanValid 0 rfl rfl rfl rfl rfl).1,
    (C1_span_context_stored_and_used subSpanOnly startSpanHandler envStore
      cb42 [] [] spanValid 0 rfl rfl rfl rfl rfl).2⟩

/-- A callback that throws the string "x". -/
def cbErrX : FieldVal → Except Val Val := fun _ => .error (.str "x")

/-- C6 witness: the error-record shape evaluated on a channel with every
handler subscribed and a synchronously throwing callback. -/
theorem C6_error_record_shape_witness :
    chAll.error.isEmpty = false ∧
    chAll.end_.isEmpty = false ∧
    (traceSync chAll envNoStore cbErrX []).1 = .error (.str "x") ∧
    getField (setField (pubIf .start chAll.start envNoStore.ambient []).1
        "error" (.v (.str "x"))) "error" = some (.v (.str "x")) :=
  ⟨rfl, rfl,
    ((C6_error_record_shape chAll envNoStore cbErrX [] (.str "x")
      rfl rfl).1 rfl).1,
    ((C6_error_record_shape chAll envNoStore cbErrX [] (.str "x")
      rfl rfl).1 rfl).2.2.2⟩

/-! ## Claim C9: capability detection -/

theorem count_detect_pubIf (k : EvKind) (hs : List Handler) (amb : OtelCtx)
    (r : Record) : ((pubIf k hs amb r).2).count Event.detect = 0 := by
  by_cases h : hs.isEmpty <;> simp [pubIf, h]

theorem count_detect_finishError (ch : ChannelSubs) (env : Env) (e : Val)
    (r : Record) (tr : List Event) :
    ((finishError ch env e r tr).2.2).count Event.detect
      = tr.count Event.detect := by
  by_cases hE : ch.error.isEmpty <;>
    simp [finishError, hE, List.count_append, count_detect_pubIf]

theorem count_detect_finishRun (ch : ChannelSubs) (env : Env)
    (res : Except Val Val) (r : Record) (tr : List Event) :
    ((finishRun ch env res r tr).2.2).count Event.detect
      = tr.count Event.detect := by
  cases res with
  | ok v => simp [finishRun, List.count_append, count_detect_pubIf]
  | error e => simp [finishRun, count_detect_finishError]

/-- Whenever the reserved slot is truthy, the try block performs exactly
one context-manager lookup, whatever the lookup's outcome. -/
theorem tracePromiseGo_count_detect_some (ch : ChannelSubs) (env : Env)
    (cb : FieldVal → Except Val Val) (r2 : Record) (pre : List Event)
    (sc : FieldVal) :
    ((tracePromiseGo ch env cb r2 pre (some sc)).2.2).count Event.detect
      = pre.count Event.detect + 1 := by
  obtain ⟨amb, lk⟩ := env
  cases lk <;>
    simp [tracePromiseGo, count_detect_finishError, count_detect_finishRun,
      List.count_append]

/-- C9 counterexample: a single tracePromise invocation on a channel
whose start handler stored a span context performs a context-manager
lookup of its own — detection is not cached from construction, it also
runs during traced invocations. -/
theorem C9_detection_counterexample :
    Event.detect ∈ (tracePromise chSpan envStore cb42 []).2.2 ∧
    ((tracePromise chSpan envStore cb42 []).2.2).count Event.detect = 1 := by
  decide

/-- C9 amended: the construction-time detection in prepChannel never
throws — a lookup failure (throwing accessor or null manager) or a
manager without storage is absorbed and the channel is returned
unchanged, while a found storage is bound — but the detection result is
not cached for tracePromise: every invocation whose record carries a
truthy stored span context performs exactly one fresh context-manager
lookup. -/
theorem C9_detection_amended (st : FacadeState) (s : SubRecord)
    (orig : Handler) (env : Env) (cb : FieldVal → Except Val Val)
    (ctx : Record) (r' : Record) (v : Val)
    (hstart : s.start = some orig) (hasync : s.asyncStart = none)
    (horig : orig env.ambient ctx = (r', Except.ok v))
    (hspan : isSpan v = .ok true) :
    ((∀ e, prepChannel (.throws e) st = st) ∧
      prepChannel .nullManager st = st ∧
      prepChannel .managerNoStorage st = st ∧
      (∀ sid, ∃ st', bindStore st (.als sid) = .ok st' ∧
        prepChannel (.managerWithStorage sid) st = st')) ∧
    ((tracePromise (subscribe ⟨[], [], [], [], []⟩ s) env cb ctx).2.2).count
        Event.detect = 1 := by
  refine ⟨⟨fun e => rfl, rfl, rfl, fun sid => ⟨_, rfl, rfl⟩⟩, ?_⟩
  rw [tracePromise_span_subscribed_eq s orig env cb ctx r' v
    hstart hasync horig hspan]
  rw [tracePromiseGo_count_detect_some]
  simp

/-- C9 amended witness: the detection behaviour evaluated on the empty
facade state and the concrete span-returning subscriber. -/
theorem C9_detection_amended_witness :
    prepChannel (.throws (.str "err")) ⟨[], [], [], [], [], []⟩
        = ⟨[], [], [], [], [], []⟩ ∧
    prepChannel .nullManager ⟨[], [], [], [], [], []⟩
        = ⟨[], [], [], [], [], []⟩ ∧
    ((tracePromise (subscribe ⟨[], [], [], [], []⟩ subSpanOnly) envStore
        cb42 []).2.2).count Event.detect = 1 :=
  ⟨(C9_detection_amended ⟨[], [], [], [], [], []⟩ subSpanOnly
      startSpanHandler envStore cb42 [] [] spanValid
      rfl rfl rfl rfl).1.1 (.str "err"),
    (C9_detection_amended ⟨[], [], [], [], [], []⟩ subSpanOnly
      startSpanHandler envStore cb42 [] [] spanValid
      rfl rfl rfl rfl).1.2.1,
    (C9_detection_amended ⟨[], [], [], [], [], []⟩ subSpanOnly
      startSpanHandler envStore cb42 [] [] spanValid
      rfl rfl rfl rfl).2⟩

/-! ## Claim C10: transparency of the start-handler wrapper -/

/-- A start handler returning a span-shaped object whose accessor
throws. -/
def origBoom : Handler := fun _ r => (r, .ok throwingSpanVal)

/-- C10 counterexample: when the original start handler returns a
span-shaped value whose accessor throws, the wrapper does not return the
original handler's return value — the isSpan check inside the wrapper
raises, so the wrapper throws instead of returning. -/
theorem C10_wrapper_transparency_counterexample :
    (origBoom ⟨0, none⟩ []).2 = .ok throwingSpanVal ∧
    (wrappedStart origBoom ⟨0, none⟩ []).2 = .error (.str "boom") ∧
    (wrappedStart origBoom ⟨0, none⟩ []).2 ≠ (origBoom ⟨0, none⟩ []).2 := by
  decide

/-- C10 amended: the wrapper built by subscribe invokes the original
start handler once on the same record and is transparent apart from the
reserved slot: an exception of the original propagates unchanged; when
the returned value's span check does not throw, the wrapper returns that
value unchanged, writing the reserved __otelSpanContext field exactly
when the value is recognized as a span and leaving the record otherwise
as the original left it; when the span check itself throws, the wrapper
raises that error instead of returning; and in every case the wrapper
writes no field other than the reserved one beyond the original
handler's own effects. -/
theorem C10_wrapper_transparency_amended (orig : Handler) (amb : OtelCtx)
    (r : Record) :
    (∀ e, (orig amb r).2 = .error e →
        wrappedStart orig amb r = ((orig amb r).1, .error e)) ∧
    (∀ v, (orig amb r).2 = .ok v → isSpan v = .ok true →
        (wrappedStart orig amb r).2 = .ok v ∧
        (wrappedStart orig amb r).1
          = setField (orig amb r).1 "__otelSpanContext"
              (.ctx (setSpan amb v))) ∧
    (∀ v, (orig amb r).2 = .ok v → isSpan v = .ok false →
        wrappedStart orig amb r = ((orig amb r).1, .ok v)) ∧
    (∀ v m, (orig amb r).2 = .ok v → isSpan v = .error m →
        wrappedStart orig amb r = ((orig amb r).1, .error (.str m))) ∧
    (∀ k, k ≠ "__otelSpanContext" →
        getField (wrappedStart orig amb r).1 k = getField (orig amb r).1 k) := by
  rcases hp : orig amb r with ⟨r0, res⟩
  refine ⟨?_, ?_, ?_, ?_, ?_⟩
  · intro e he
    simp only at he
    subst he
    simp [wrappedStart, hp]
  · intro v hv hs
    simp only at hv
    subst hv
    constructor <;> simp [wrappedStart, hp, hs]
  · intro v hv hs
    simp only at hv
    subst hv
    simp [wrappedStart, hp, hs]
  · intro v m hv hs
    simp only at hv
    subst hv
    simp [wrappedStart, hp, hs]
  · intro k hk
    cases res with
    | error e => simp [wrappedStart, hp]
    | ok v =>
      cases hs : isSpan v with
      | error m => simp [wrappedStart, hp, hs]
      | ok b =>
        cases b with
        | true => simp [wrappedStart, hp, hs, getField_setField_other _ _ _ _ hk]
        | false => simp [wrappedStart, hp, hs]

/-- C10 amended witness: the transparency property evaluated on the
concrete span-returning start handler. -/
theorem C10_wrapper_transparency_amended_witness :
    (startSpanHandler ⟨0, none⟩ []).2 = .ok spanValid ∧
    isSpan spanValid = .ok true ∧
    (wrappedStart startSpanHandler ⟨0, none⟩ []).2 = .ok spanValid ∧
    (wrappedStart startSpanHandler ⟨0, none⟩ []).1
      = setField [] "__otelSpanContext" (.ctx (setSpan ⟨0, none⟩ spanValid)) :=
  ⟨rfl, rfl,
    ((C10_wrapper_transparency_amended startSpanHandler ⟨0, none⟩ []).2.1
      spanValid rfl rfl).1,
    ((C10_wrapper_transparency_amended startSpanHandler ⟨0, none⟩ []).2.1
      spanValid rfl rfl).2⟩

end OtelTracingChannel
